import Mathlib

/-!
Verification of the SMS front-end admission-control core.

Shallow embedding of the two request handlers of the repository:
the regional (Philippine, Twilio-backed) handler and the generic
(simulated) handler, together with the cooldown store they rely on.
Strings from the JavaScript source are modelled as lists of characters;
timestamps are natural numbers of milliseconds (values of Date.now());
arithmetic that the source performs on JavaScript numbers is carried out
on integers.
-/

namespace SmsMessage

/-- Characters removed by the separator-stripping regexes of the source.
This models the character class of the JavaScript regex construct for
whitespace restricted to its common members (space, tab, newline,
carriage return, vertical tab, form feed, no-break space); the claims
under verification only exercise the plain space character. -/
def isJsSpace (c : Char) : Bool :=
  c == ' ' || c == '\t' || c == '\n' || c == '\r' || c == '\x0b' ||
    c == '\x0c' || c == ' '

/-- Models cleanPhone of isValidPhilippinePhone (part_000 line 45):
the raw destination with every whitespace or hyphen character removed. -/
def stripSeparators (s : List Char) : List Char :=
  s.filter (fun c => !(isJsSpace c || c == '-'))

/-- Models the whitespace-only stripping of server.js line 30:
phone.replace of whitespace by the empty string (hyphens are kept). -/
def stripJsSpaces (s : List Char) : List Char :=
  s.filter (fun c => !isJsSpace c)

/-- Exactly nine ASCII digits: the tail required by the regional regex. -/
def nineDigits (l : List Char) : Bool :=
  l.length == 9 && l.all Char.isDigit

/-- Models the regional regex of part_000 line 46: the string is either
the four characters of the international form followed by nine digits, or
the two characters of the trunk form followed by nine digits. -/
def matchesPhRegex (s : List Char) : Bool :=
  (s.take 4 == ('+' :: '6' :: '3' :: '9' :: []) && nineDigits (s.drop 4)) ||
    (s.take 2 == ('0' :: '9' :: []) && nineDigits (s.drop 2))

/-- Models isValidPhilippinePhone (part_000 lines 44-48): the regional
regex tested against the separator-stripped copy of the raw string. -/
def isValidPhilippinePhone (s : List Char) : Bool :=
  matchesPhRegex (stripSeparators s)

/-- True when the raw string literally begins with the two characters of
the trunk form, as required by the anchored replacement regex of
part_000 line 69. -/
def startsWith09 : List Char → Bool
  | a :: b :: _ => a == '0' && b == '9'
  | _ => false

/-- Models the rewrite of part_000 line 69: the first occurrence of an
anchored leading trunk mark is replaced by the international mark; a raw
string not literally beginning with it is returned unchanged. Note that
the rewrite operates on the raw string, not on the separator-stripped
copy used for validation. -/
def normalizePhone (s : List Char) : List Char :=
  if startsWith09 s then '+' :: '6' :: '3' :: '9' :: s.drop 2 else s

/-- Models the loose generic regex of server.js line 29: an optional
leading plus sign, then a nonzero ASCII digit, then one to fourteen
further ASCII digits. -/
def e164Core (s : List Char) : Bool :=
  match s with
  | c :: d :: rest =>
      c.isDigit && !(c == '0') && d.isDigit && rest.all Char.isDigit &&
        decide (rest.length ≤ 13)
  | _ => false

/-- Models the full generic regex match of server.js line 29, with the
optional plus consumed when present. -/
def matchesE164 (s : List Char) : Bool :=
  match s with
  | '+' :: rest => e164Core rest
  | s => e164Core s

/-- Models the generic acceptance test of server.js line 30: the regex
applied to the whitespace-stripped copy of the raw string. -/
def acceptsGenericPhone (s : List Char) : Bool :=
  matchesE164 (stripJsSpaces s)

/-- Acceptance as worded by the specification for the generic variant:
the pattern applied after stripping whitespace AND hyphen separators.
This definition follows the words of the spec (section 4.1) and is
compared against acceptsGenericPhone, which follows the source. -/
def specGenericAccepts (s : List Char) : Bool :=
  matchesE164 (stripSeparators s)

/-! ## The cooldown store -/

/-- The in-memory cooldown map of part_000 line 30: normalized
destination to timestamp of the last accepted send attempt. -/
abbrev CooldownMap := List Char → Option Nat

/-- The map with no entries. -/
def emptyCooldown : CooldownMap := fun _ => none

/-- Models cooldown.set of part_000 line 97. -/
def mapSet (m : CooldownMap) (k : List Char) (v : Nat) : CooldownMap :=
  fun q => if q = k then some v else m q

/-- Models cooldown.delete of part_000 line 128. -/
def mapDelete (m : CooldownMap) (k : List Char) : CooldownMap :=
  fun q => if q = k then none else m q

/-- Models the denial condition of part_000 line 88: an entry exists,
is truthy as a JavaScript number (hence nonzero), and the elapsed time
is under ten seconds. The subtraction is integer subtraction, as on
JavaScript numbers. -/
def cooldownDenies (m : CooldownMap) (dest : List Char) (now : Nat) : Bool :=
  match m dest with
  | some t0 => !(t0 == 0) && decide ((now : Int) - (t0 : Int) < 10000)
  | none => false

/-- Models Math.ceil of the quotient by one thousand (part_000 line 89)
on an integer argument. -/
def jsCeilDiv1000 (x : Int) : Int :=
  -((-x) / 1000)

/-- Models remainingTime of part_000 line 89 for an entry read at t0. -/
def remainingAfter (now t0 : Nat) : Int :=
  jsCeilDiv1000 (10000 - ((now : Int) - (t0 : Int)))

/-- The remaining-seconds value reported by the denial branch of
part_000 lines 88-92, computed from the stored entry. -/
def remainingForMsg (m : CooldownMap) (dest : List Char) (now : Nat) : Int :=
  match m dest with
  | some t0 => remainingAfter now t0
  | none => 0

/-- Result of the check-and-reserve step of the cooldown store. -/
inductive ReserveResult where
  | allowed (m1 : CooldownMap)
  | denied (remainingSeconds : Int)

/-- True when the reservation was granted. -/
def ReserveResult.isAllowed : ReserveResult → Bool
  | .allowed _ => true
  | .denied _ => false

/-- True when the reservation was denied. -/
def ReserveResult.isDenied : ReserveResult → Bool
  | .allowed _ => false
  | .denied _ => true

/-- The reported remaining seconds of a denial, or a default. -/
def ReserveResult.remainingOr (r : ReserveResult) (d : Int) : Int :=
  match r with
  | .allowed _ => d
  | .denied n => n

/-- The check-and-reserve operation of the cooldown store, as the
specification names the combined code of part_000 lines 86-97: when the
denial condition holds the stored remaining seconds are reported and the
map is untouched; otherwise the current time is written. -/
def checkAndReserve (m : CooldownMap) (dest : List Char) (now : Nat) :
    ReserveResult :=
  if cooldownDenies m dest now then .denied (remainingForMsg m dest now)
  else .allowed (mapSet m dest now)

/-- Models the rollback of part_000 line 128: unconditional deletion. -/
def rollback (m : CooldownMap) (dest : List Char) : CooldownMap :=
  mapDelete m dest

/-- Models the periodic sweep of part_000 lines 162-169: every entry
strictly older than one hour is deleted, every other entry is kept with
its timestamp. -/
def sweep (m : CooldownMap) (now : Nat) : CooldownMap :=
  fun k =>
    match m k with
    | some t => if (now : Int) - (t : Int) > 3600000 then none else some t
    | none => none

/-! ## HTTP requests and responses -/

/-- A JSON value as used in the response bodies of the handlers. -/
inductive JsVal where
  | str (s : List Char)
  | num (n : Int)
  | bool (b : Bool)
deriving DecidableEq

/-- An HTTP response: status code and JSON body as an ordered list of
fields, so that a body "contains exactly" some fields precisely when the
list equals them. -/
structure HttpResponse where
  status : Nat
  body : List (String × JsVal)
deriving DecidableEq

/-- The query parameters of a request to the endpoint; a missing query
parameter is none. -/
structure SmsRequest where
  phone : Option (List Char)
  sender : Option (List Char)
  text : Option (List Char)
deriving DecidableEq

/-- Models JavaScript falsiness of a query parameter (part_000 line 55,
server.js line 22): absent or the empty string. -/
def isFalsyParam : Option (List Char) → Bool
  | none => true
  | some [] => true
  | some (_ :: _) => false

/-- The outcome of the provider call of part_000 line 100, treated as an
opaque external collaborator: a provider message id on success, or an
error carrying the provider error code and raw error text. -/
inductive ProviderOutcome where
  | success (sid : List Char)
  | failure (code : Option Int) (message : List Char)

/-- A response with a single error field (the shape of every non-200
body of both handlers). -/
def mkErr (st : Nat) (msg : List Char) : HttpResponse :=
  ⟨st, [("error", JsVal.str msg)]⟩

/-- The interpolated 429 message of part_000 line 91. -/
def waitMessage (n : Int) : List Char :=
  ("Please wait ".data) ++ (toString n).data ++
    (" seconds before sending another message to this number".data)

/-- True when the first list occurs at the head of the second. -/
def leadsWith : List Char → List Char → Bool
  | [], _ => true
  | _ :: _, [] => false
  | a :: as, b :: bs => a == b && leadsWith as bs

/-- Models the includes method of JavaScript strings (part_000
line 141): the needle occurs contiguously somewhere in the haystack. -/
def containsSub (needle : List Char) : List Char → Bool
  | [] => leadsWith needle []
  | c :: rest => leadsWith needle (c :: rest) || containsSub needle rest

/-- Models the error classification of part_000 lines 130-143: the
provider error code selects one of four specific generic messages, an
authentication failure detected by substring search on the raw text
selects a fifth, and everything else keeps the initial generic text. -/
def classifyTwilioError (code : Option Int) (emsg : List Char) :
    List Char :=
  if code == some 21211 then ("Invalid phone number format".data)
  else if code == some 21408 then
    ("SMS is not available for this number/region".data)
  else if code == some 21610 then ("Phone number is blacklisted".data)
  else if code == some 21614 then ("Phone number is not SMS capable".data)
  else if containsSub ("Authentication Error".data) emsg then
    ("SMS service configuration error".data)
  else ("Failed to send SMS".data)

/-- The fixed set of generic safe messages a provider failure can be
translated to (part_000 lines 130-143). -/
def safeSmsErrorMessages : List (List Char) :=
  [("Failed to send SMS".data),
   ("Invalid phone number format".data),
   ("SMS is not available for this number/region".data),
   ("Phone number is blacklisted".data),
   ("Phone number is not SMS capable".data),
   ("SMS service configuration error".data)]

/-! ## The regional handler (part_000 lines 51-149) -/

/-- State of a request after the synchronous admission phase of the
regional handler (everything up to and including the optimistic
reservation of part_000 line 97, before the handler suspends on the
provider call): either an early response, or the normalized phone,
sender label, text and the cooldown map with the reservation written. -/
inductive GateResult where
  | rejected (resp : HttpResponse)
  | proceed (phone sender text : List Char) (m1 : CooldownMap)

/-- True when the gate admitted the request and reserved the slot. -/
def GateResult.isProceed : GateResult → Bool
  | .rejected _ => false
  | .proceed _ _ _ _ => true

/-- The admission phase of the regional handler, in source order:
missing parameters (line 55), regional phone validation (line 62),
rewrite to international form (line 69), message length (line 72),
sender length (line 79), cooldown check (lines 86-93), and the
optimistic reservation (line 97). -/
def smsGate (m : CooldownMap) (now : Nat) (req : SmsRequest) : GateResult :=
  if isFalsyParam req.phone || isFalsyParam req.sender ||
      isFalsyParam req.text then
    .rejected (mkErr 400 ("Missing required parameters: phone, sender, text".data))
  else if !isValidPhilippinePhone (req.phone.getD []) then
    .rejected (mkErr 400 ("Invalid Philippine phone number format. Use 09XXXXXXXXX or +639XXXXXXXXX".data))
  else if 160 < (req.text.getD []).length then
    .rejected (mkErr 400 ("Message too long (max 160 characters)".data))
  else if 11 < (req.sender.getD []).length then
    .rejected (mkErr 400 ("Sender name too long (max 11 characters)".data))
  else if cooldownDenies m (normalizePhone (req.phone.getD [])) now then
    .rejected (mkErr 429
      (waitMessage (remainingForMsg m (normalizePhone (req.phone.getD [])) now)))
  else
    .proceed (normalizePhone (req.phone.getD [])) (req.sender.getD [])
      (req.text.getD [])
      (mapSet m (normalizePhone (req.phone.getD [])) now)

/-- The complete outcome of one invocation of the regional handler:
the response sent, the cooldown map after the invocation, and whether
the provider call was issued. -/
structure HandlerResult where
  response : HttpResponse
  cooldown : CooldownMap
  providerCalled : Bool

/-- The regional handler of part_000 lines 51-149: the admission gate,
then the provider call; on success the success payload of lines 115-122
with the reservation kept; on failure the rollback of line 128 and the
classified 500 response of lines 130-147. nowIso stands for the
timestamp string produced at response time. -/
def handleSms (m : CooldownMap) (now : Nat) (nowIso : List Char)
    (req : SmsRequest) (provider : ProviderOutcome) : HandlerResult :=
  match smsGate m now req with
  | .rejected resp => ⟨resp, m, false⟩
  | .proceed phone sender _ m1 =>
    match provider with
    | .success sid =>
        ⟨⟨200, [("success", JsVal.bool true),
                ("message", JsVal.str ("SMS sent successfully!".data)),
                ("messageId", JsVal.str sid),
                ("recipient", JsVal.str phone),
                ("sender", JsVal.str sender),
                ("timestamp", JsVal.str nowIso)]⟩, m1, true⟩
    | .failure code emsg =>
        ⟨mkErr 500 (classifyTwilioError code emsg), rollback m1 phone, true⟩

/-! ## The generic handler (server.js lines 18-88) -/

/-- The generic handler of server.js: missing parameters (line 22),
loose phone pattern on the whitespace-stripped copy (lines 29-30),
message length (line 37), then the simulated success of lines 71-77
with a locally generated message id; no provider call exists in this
handler and nothing in its try block can throw, so the catch branch of
lines 79-84 is never taken. randSuffix stands for the random id suffix,
nowIso for the timestamp string. The boolean of the pair records
whether an outbound provider call was issued. -/
def handleSmsGeneric (req : SmsRequest) (randSuffix : List Char)
    (nowIso : List Char) : HttpResponse × Bool :=
  if isFalsyParam req.phone || isFalsyParam req.sender ||
      isFalsyParam req.text then
    (mkErr 400 ("Missing required parameters: phone, sender, text".data), false)
  else if !acceptsGenericPhone (req.phone.getD []) then
    (mkErr 400 ("Invalid phone number format".data), false)
  else if 160 < (req.text.getD []).length then
    (mkErr 400 ("Message too long (max 160 characters)".data), false)
  else
    (⟨200, [("success", JsVal.bool true),
            ("message", JsVal.str ("SMS sent successfully".data)),
            ("messageId", JsVal.str (("msg_".data) ++ randSuffix)),
            ("timestamp", JsVal.str nowIso)]⟩, false)

/-! ## Helper lemmas -/

/-- A string accepted by the regional validator is nonempty. -/
theorem valid_ne_nil {q : List Char} (h : isValidPhilippinePhone q = true) :
    q ≠ [] := by
  intro hn
  subst hn
  exact Bool.noConfusion h

/-- A raw string beginning with the trunk mark decomposes as such. -/
theorem startsWith09_shape :
    ∀ {s : List Char}, startsWith09 s = true → ∃ t, s = '0' :: '9' :: t
  | a :: b :: t, h => by
    have h' : (a == '0' && b == '9') = true := h
    rw [Bool.and_eq_true] at h'
    exact ⟨t, by rw [eq_of_beq h'.1, eq_of_beq h'.2]⟩
  | [], h => Bool.noConfusion h
  | [_], h => Bool.noConfusion h

/-- The trunk-form branch of the regional regex. -/
theorem matchesPhRegex_09 (w : List Char) :
    matchesPhRegex ('0' :: '9' :: w) = nineDigits w := rfl

/-- The international-form branch of the regional regex. -/
theorem matchesPhRegex_plus639 (w : List Char) :
    matchesPhRegex ('+' :: '6' :: '3' :: '9' :: w) = nineDigits w := by
  have h : matchesPhRegex ('+' :: '6' :: '3' :: '9' :: w) =
      (nineDigits w || false) := rfl
  rw [h, Bool.or_false]

/-- The rewrite preserves acceptance by the regional validator. -/
theorem valid_normalizePhone {s : List Char}
    (h : isValidPhilippinePhone s = true) :
    isValidPhilippinePhone (normalizePhone s) = true := by
  by_cases h09 : startsWith09 s = true
  · obtain ⟨t, rfl⟩ := startsWith09_shape h09
    have hn : normalizePhone ('0' :: '9' :: t) =
        '+' :: '6' :: '3' :: '9' :: t := rfl
    rw [hn]
    have hs : stripSeparators ('0' :: '9' :: t) =
        '0' :: '9' :: stripSeparators t := rfl
    rw [isValidPhilippinePhone, hs, matchesPhRegex_09] at h
    have hs2 : stripSeparators ('+' :: '6' :: '3' :: '9' :: t) =
        '+' :: '6' :: '3' :: '9' :: stripSeparators t := rfl
    rw [isValidPhilippinePhone, hs2, matchesPhRegex_plus639]
    exact h
  · rw [normalizePhone, if_neg h09]
    exact h

/-- The rewrite of part_000 line 69 is idempotent on every raw string. -/
theorem normalizePhone_idem (s : List Char) :
    normalizePhone (normalizePhone s) = normalizePhone s := by
  by_cases h09 : startsWith09 s = true
  · obtain ⟨t, rfl⟩ := startsWith09_shape h09
    rfl
  · have hs : normalizePhone s = s := by rw [normalizePhone, if_neg h09]
    rw [hs]
    exact hs

/-! ## Claims about the phone normalizer -/

/-- C3 (counterexample): the raw string 0917-123-4567 is accepted by the
regional validator, but the canonical form the handler produces for it,
+63917-123-4567, still contains hyphen separators; and the accepted raw
string with a leading space is returned without the rewrite to
international form at all. This refutes the claim that the returned
canonical form always has separators stripped and the trunk form always
rewritten to international form. -/
theorem C3_counterexample :
    isValidPhilippinePhone ("0917-123-4567".data) = true ∧
    normalizePhone ("0917-123-4567".data) = ("+63917-123-4567".data) ∧
    ('-' ∈ normalizePhone ("0917-123-4567".data)) ∧
    isValidPhilippinePhone (" 09171234567".data) = true ∧
    normalizePhone (" 09171234567".data) = (" 09171234567".data) := by
  refine ⟨rfl, rfl, ?_, rfl, rfl⟩
  decide

/-- C3 (amended): the regional validator accepts exactly the raw strings
whose separator-stripped form matches the regional regex (trunk mark or
international mark followed by nine digits); the returned form is the
raw input with a literal leading trunk mark replaced by the
international mark and is otherwise the raw input unchanged (separators
are not stripped from it, and a raw form not literally beginning with
the trunk mark is not rewritten); the returned form is itself accepted
by the validator. -/
theorem C3_regional_validator (s : List Char)
    (h : isValidPhilippinePhone s = true) :
    matchesPhRegex (stripSeparators s) = true ∧
    normalizePhone s =
      (if startsWith09 s then '+' :: '6' :: '3' :: '9' :: s.drop 2 else s) ∧
    isValidPhilippinePhone (normalizePhone s) = true := by
  refine ⟨h, ?_, valid_normalizePhone h⟩
  by_cases h09 : startsWith09 s = true
  · obtain ⟨t, rfl⟩ := startsWith09_shape h09
    rfl
  · rw [normalizePhone, if_neg h09]

/-- C3 witness: the amended theorem applied to a concrete accepted
input carrying separators. -/
theorem C3_witness :
    isValidPhilippinePhone ("0918 555 0100".data) = true ∧
    (matchesPhRegex (stripSeparators ("0918 555 0100".data)) = true ∧
     normalizePhone ("0918 555 0100".data) =
       (if startsWith09 ("0918 555 0100".data) then
          '+' :: '6' :: '3' :: '9' :: ("0918 555 0100".data).drop 2
        else ("0918 555 0100".data)) ∧
     isValidPhilippinePhone (normalizePhone ("0918 555 0100".data)) = true) :=
  ⟨by decide, C3_regional_validator ("0918 555 0100".data) (by decide)⟩

/-- C7: for every destination accepted by the regional validator,
normalization is idempotent: the returned form is itself accepted and a
second application of the rewrite leaves it unchanged. -/
theorem C7_normalize_idempotent (s : List Char)
    (h : isValidPhilippinePhone s = true) :
    isValidPhilippinePhone (normalizePhone s) = true ∧
    normalizePhone (normalizePhone s) = normalizePhone s :=
  ⟨valid_normalizePhone h, normalizePhone_idem s⟩

/-- C7 witness: idempotence at a concrete accepted trunk-form input. -/
theorem C7_witness :
    isValidPhilippinePhone ("09171230001".data) = true ∧
    (isValidPhilippinePhone (normalizePhone ("09171230001".data)) = true ∧
     normalizePhone (normalizePhone ("09171230001".data)) =
       normalizePhone ("09171230001".data)) :=
  ⟨by decide, C7_normalize_idempotent ("09171230001".data) (by decide)⟩

/-! ## Claims about the cooldown store sweep -/

/-- C5: for an entry of the cooldown map, the periodic sweep deletes it
exactly when its age exceeds the one-hour retention horizon strictly,
and keeps it with an unchanged timestamp otherwise. -/
theorem C5_sweep_retention (m : CooldownMap) (now : Nat) (k : List Char)
    (t : Nat) (hm : m k = some t) :
    (sweep m now k = none ↔ 3600000 < (now : Int) - (t : Int)) ∧
    ((now : Int) - (t : Int) ≤ 3600000 → sweep m now k = some t) := by
  have hred : sweep m now k =
      (if 3600000 < (now : Int) - (t : Int) then none else some t) := by
    unfold sweep
    rw [hm]
  rw [hred]
  by_cases hc : (3600000 : Int) < (now : Int) - (t : Int)
  · rw [if_pos hc]
    exact ⟨⟨fun _ => hc, fun _ => rfl⟩, fun hle => absurd hc (not_lt.mpr hle)⟩
  · rw [if_neg hc]
    exact ⟨⟨fun hne => absurd hne (by simp), fun hlt => absurd hlt hc⟩,
      fun _ => rfl⟩

/-- C5 witness: the sweep theorem applied to a concrete map holding an
entry of age exactly one hour (kept) at sweep time. -/
theorem C5_witness :
    (mapSet emptyCooldown ("+639171230002".data) 1000)
        ("+639171230002".data) = some 1000 ∧
    ((sweep (mapSet emptyCooldown ("+639171230002".data) 1000) 3601000
        ("+639171230002".data) = none ↔
      3600000 < (3601000 : Int) - (1000 : Int)) ∧
     ((3601000 : Int) - (1000 : Int) ≤ 3600000 →
      sweep (mapSet emptyCooldown ("+639171230002".data) 1000) 3601000
        ("+639171230002".data) = some 1000)) :=
  ⟨by decide,
   C5_sweep_retention (mapSet emptyCooldown ("+639171230002".data) 1000)
     3601000 ("+639171230002".data) 1000 (by decide)⟩

/-! ## Helper lemmas for the cooldown store and the regional handler -/

/-- A present query parameter with a nonempty value is not falsy. -/
theorem isFalsyParam_of_ne {l : List Char} (h : l ≠ []) :
    isFalsyParam (some l) = false := by
  cases l with
  | nil => exact absurd rfl h
  | cons a as => rfl

/-- An entry that is nonzero and younger than the window denies. -/
theorem cooldownDenies_of_entry {m : CooldownMap} {dest : List Char}
    {t0 now : Nat} (hm : m dest = some t0) (h0 : 0 < t0)
    (hlt : (now : Int) - (t0 : Int) < 10000) :
    cooldownDenies m dest now = true := by
  unfold cooldownDenies
  rw [hm]
  show (!(t0 == 0) && decide ((now : Int) - (t0 : Int) < 10000)) = true
  rw [Bool.and_eq_true]
  refine ⟨?_, decide_eq_true hlt⟩
  have hne : (t0 == 0) = false :=
    beq_eq_false_iff_ne.mpr (Nat.pos_iff_ne_zero.mp h0)
  rw [hne]
  rfl

/-- The remaining-seconds value read from a present entry. -/
theorem remainingForMsg_of_entry {m : CooldownMap} {dest : List Char}
    {t0 : Nat} (now : Nat) (hm : m dest = some t0) :
    remainingForMsg m dest now = remainingAfter now t0 := by
  unfold remainingForMsg
  rw [hm]

/-- checkAndReserve denies on a nonzero entry younger than the window. -/
theorem checkAndReserve_denied {m : CooldownMap} {dest : List Char}
    {t0 now : Nat} (hm : m dest = some t0) (h0 : 0 < t0)
    (hlt : (now : Int) - (t0 : Int) < 10000) :
    checkAndReserve m dest now = .denied (remainingAfter now t0) := by
  have hd := cooldownDenies_of_entry hm h0 hlt
  unfold checkAndReserve
  rw [if_pos hd, remainingForMsg_of_entry now hm]

/-- checkAndReserve grants the reservation when no entry is present. -/
theorem checkAndReserve_isAllowed_of_none {m : CooldownMap}
    {dest : List Char} (t : Nat) (h : m dest = none) :
    (checkAndReserve m dest t).isAllowed = true := by
  have hd : cooldownDenies m dest t = false := by
    unfold cooldownDenies
    rw [h]
  unfold checkAndReserve
  rw [if_neg (by rw [hd]; exact Bool.noConfusion)]
  rfl

/-- The ceiling value reported on denial, bounded by its defining
inequalities. -/
theorem remainingAfter_bounds {now t0 : Nat} (hle : t0 ≤ now)
    (hlt : (now : Int) - (t0 : Int) < 10000) :
    1 ≤ remainingAfter now t0 ∧ remainingAfter now t0 ≤ 10 ∧
    1000 * (remainingAfter now t0 - 1) < 10000 - ((now : Int) - (t0 : Int)) ∧
    10000 - ((now : Int) - (t0 : Int)) ≤ 1000 * remainingAfter now t0 := by
  have hra : remainingAfter now t0 =
      -((-(10000 - ((now : Int) - (t0 : Int)))) / 1000) := rfl
  rw [hra]
  omega

/-- Everything the proceed outcome of the admission gate implies: the
normalized phone, the echoed sender and text, the reserved map, a
cooldown check that did not deny, and a valid raw phone. -/
theorem smsGate_proceed_inv {m : CooldownMap} {now : Nat} {req : SmsRequest}
    {p s x : List Char} {m1 : CooldownMap}
    (h : smsGate m now req = .proceed p s x m1) :
    p = normalizePhone (req.phone.getD []) ∧ s = req.sender.getD [] ∧
    x = req.text.getD [] ∧
    m1 = mapSet m (normalizePhone (req.phone.getD [])) now ∧
    cooldownDenies m (normalizePhone (req.phone.getD [])) now = false ∧
    isValidPhilippinePhone (req.phone.getD []) = true := by
  unfold smsGate at h
  split_ifs at h with h1 h2 h3 h4 h5
  injection h with e1 e2 e3 e4
  exact ⟨e1.symm, e2.symm, e3.symm, e4.symm, by simpa using h5,
    by simpa using h2⟩

/-! ## Claims about the cooldown check and reservation -/

/-- C1 (counterexample): a cooldown entry written at time 0 is falsy as
a JavaScript number, so a checkAndReserve five seconds later is allowed
although the claim requires denial; and for an entry written at time
20000 a checkAndReserve at time 15000 satisfies the claims condition
(the difference is below the window) yet reports fifteen remaining
seconds, contradicting the claimed bound of at most ten. -/
theorem C1_counterexample :
    (checkAndReserve (mapSet emptyCooldown ("+639170000001".data) 0)
        ("+639170000001".data) 5000).isAllowed = true ∧
    (checkAndReserve (mapSet emptyCooldown ("+639170000001".data) 20000)
        ("+639170000001".data) 15000).isDenied = true ∧
    (checkAndReserve (mapSet emptyCooldown ("+639170000001".data) 20000)
        ("+639170000001".data) 15000).remainingOr 0 = 15 := by
  refine ⟨by decide, by decide, by decide⟩

/-- C1 (amended): for a destination with a cooldown entry written at a
NONZERO time t0, a checkAndReserve at a LATER time t with t - t0 below
ten seconds returns denied, and the reported remainingSeconds is the
ceiling of the remaining window in seconds (characterized by its two
defining inequalities), positive and at most ten; on this denial the
handler responds 429, performs no provider call, and leaves the
cooldown map unchanged. -/
theorem C1_cooldown_denial (m : CooldownMap) (dest : List Char)
    (t0 t : Nat) (iso q sl tx : List Char) (req : SmsRequest)
    (prov : ProviderOutcome)
    (hm : m dest = some t0) (h0 : 0 < t0) (hle : t0 ≤ t)
    (hwin : t - t0 < 10000)
    (hq : req.phone = some q) (hval : isValidPhilippinePhone q = true)
    (hnorm : normalizePhone q = dest)
    (hs : req.sender = some sl) (hsne : sl ≠ []) (hslen : sl.length ≤ 11)
    (ht : req.text = some tx) (htne : tx ≠ []) (htlen : tx.length ≤ 160) :
    checkAndReserve m dest t = .denied (remainingAfter t t0) ∧
    1 ≤ remainingAfter t t0 ∧ remainingAfter t t0 ≤ 10 ∧
    1000 * (remainingAfter t t0 - 1) < 10000 - ((t : Int) - (t0 : Int)) ∧
    10000 - ((t : Int) - (t0 : Int)) ≤ 1000 * remainingAfter t t0 ∧
    (handleSms m t iso req prov).response.status = 429 ∧
    (handleSms m t iso req prov).response.body =
      [("error", JsVal.str (waitMessage (remainingAfter t t0)))] ∧
    (handleSms m t iso req prov).cooldown = m ∧
    (handleSms m t iso req prov).providerCalled = false := by
  have hlt : (t : Int) - (t0 : Int) < 10000 := by omega
  have hden := cooldownDenies_of_entry hm h0 hlt
  have hCR := checkAndReserve_denied hm h0 hlt
  have hbounds := remainingAfter_bounds hle hlt
  have hqne : q ≠ [] := valid_ne_nil hval
  have hgate : smsGate m t req =
      .rejected (mkErr 429 (waitMessage (remainingAfter t t0))) := by
    unfold smsGate
    rw [hq, hs, ht]
    simp only [Option.getD_some]
    rw [isFalsyParam_of_ne hqne, isFalsyParam_of_ne hsne,
      isFalsyParam_of_ne htne, hval, hnorm, hden,
      remainingForMsg_of_entry t hm]
    rw [if_neg (by simp), if_neg (by simp), if_neg (by omega),
      if_neg (by omega), if_pos rfl]
  have hh : handleSms m t iso req prov =
      ⟨mkErr 429 (waitMessage (remainingAfter t t0)), m, false⟩ := by
    unfold handleSms
    rw [hgate]
  rw [hh]
  exact ⟨hCR, hbounds.1, hbounds.2.1, hbounds.2.2.1, hbounds.2.2.2,
    rfl, rfl, rfl, rfl⟩

/-- C1 witness: the amended theorem at a concrete map holding an entry
written at time 1 and a request five seconds later. -/
theorem C1_witness :
    (mapSet emptyCooldown ("+639171234567".data) 1)
        ("+639171234567".data) = some 1 ∧
    (checkAndReserve (mapSet emptyCooldown ("+639171234567".data) 1)
        ("+639171234567".data) 5000 = .denied (remainingAfter 5000 1) ∧
     1 ≤ remainingAfter 5000 1 ∧ remainingAfter 5000 1 ≤ 10 ∧
     1000 * (remainingAfter 5000 1 - 1) <
       10000 - ((5000 : Int) - (1 : Int)) ∧
     10000 - ((5000 : Int) - (1 : Int)) ≤ 1000 * remainingAfter 5000 1 ∧
     (handleSms (mapSet emptyCooldown ("+639171234567".data) 1) 5000
        ("ts".data)
        ⟨some ("09171234567".data), some ("TEST".data), some ("Hi".data)⟩
        (.success ("SM1".data))).response.status = 429 ∧
     (handleSms (mapSet emptyCooldown ("+639171234567".data) 1) 5000
        ("ts".data)
        ⟨some ("09171234567".data), some ("TEST".data), some ("Hi".data)⟩
        (.success ("SM1".data))).response.body =
       [("error", JsVal.str (waitMessage (remainingAfter 5000 1)))] ∧
     (handleSms (mapSet emptyCooldown ("+639171234567".data) 1) 5000
        ("ts".data)
        ⟨some ("09171234567".data), some ("TEST".data), some ("Hi".data)⟩
        (.success ("SM1".data))).cooldown =
       mapSet emptyCooldown ("+639171234567".data) 1 ∧
     (handleSms (mapSet emptyCooldown ("+639171234567".data) 1) 5000
        ("ts".data)
        ⟨some ("09171234567".data), some ("TEST".data), some ("Hi".data)⟩
        (.success ("SM1".data))).providerCalled = false) :=
  ⟨by decide,
   C1_cooldown_denial (mapSet emptyCooldown ("+639171234567".data) 1)
     ("+639171234567".data) 1 5000 ("ts".data) ("09171234567".data)
     ("TEST".data) ("Hi".data)
     ⟨some ("09171234567".data), some ("TEST".data), some ("Hi".data)⟩
     (.success ("SM1".data))
     (by decide) (by decide) (by decide) (by decide)
     (by decide) (by decide) (by decide)
     (by decide) (by decide) (by decide)
     (by decide) (by decide) (by decide)⟩

/-- C2: when the provider call fails, the regional handler deletes the
cooldown entry of the normalized destination, so a checkAndReserve for
that destination on the resulting map, at any time, is allowed. -/
theorem C2_rollback_allows (m : CooldownMap) (now t2 : Nat)
    (iso q emsg : List Char) (req : SmsRequest) (code : Option Int)
    (hq : req.phone = some q)
    (hcall : (handleSms m now iso req
      (.failure code emsg)).providerCalled = true) :
    (handleSms m now iso req (.failure code emsg)).cooldown
      (normalizePhone q) = none ∧
    (checkAndReserve
      ((handleSms m now iso req (.failure code emsg)).cooldown)
      (normalizePhone q) t2).isAllowed = true := by
  cases hg : smsGate m now req with
  | rejected r =>
      rw [show handleSms m now iso req (.failure code emsg) =
          ⟨r, m, false⟩ from by unfold handleSms; rw [hg]] at hcall
      exact Bool.noConfusion hcall
  | proceed p s x m1 =>
      obtain ⟨hp, -, -, hm1, -, -⟩ := smsGate_proceed_inv hg
      have hqd : req.phone.getD [] = q := by rw [hq]; rfl
      have hh : handleSms m now iso req (.failure code emsg) =
          ⟨mkErr 500 (classifyTwilioError code emsg),
           rollback m1 p, true⟩ := by
        unfold handleSms
        rw [hg]
      have hnone : rollback m1 p (normalizePhone q) = none := by
        rw [← hqd, ← hp]
        unfold rollback mapDelete
        simp
      rw [hh]
      exact ⟨hnone, checkAndReserve_isAllowed_of_none t2 hnone⟩

/-- C2 witness: a failing provider call rolls back the fresh
reservation, and an immediate checkAndReserve is allowed again. -/
theorem C2_witness :
    (handleSms emptyCooldown 7 ("ts".data)
      ⟨some ("09171234567".data), some ("TEST".data), some ("Hi".data)⟩
      (.failure (some 21610) ("raw provider text".data))).providerCalled
        = true ∧
    ((handleSms emptyCooldown 7 ("ts".data)
      ⟨some ("09171234567".data), some ("TEST".data), some ("Hi".data)⟩
      (.failure (some 21610) ("raw provider text".data))).cooldown
        (normalizePhone ("09171234567".data)) = none ∧
     (checkAndReserve
        ((handleSms emptyCooldown 7 ("ts".data)
          ⟨some ("09171234567".data), some ("TEST".data), some ("Hi".data)⟩
          (.failure (some 21610) ("raw provider text".data))).cooldown)
        (normalizePhone ("09171234567".data)) 8).isAllowed = true) :=
  ⟨by decide,
   C2_rollback_allows emptyCooldown 7 8 ("ts".data)
     ("09171234567".data) ("raw provider text".data)
     ⟨some ("09171234567".data), some ("TEST".data), some ("Hi".data)⟩
     (some 21610) (by decide) (by decide)⟩

/-- C4 (counterexample): a first request admitted at time 0 writes the
falsy timestamp 0, and a second identical request at time 5000 (within
the ten-second window) is admitted as well: both requests observe
allowed within the window, refuting the claim as stated. -/
theorem C4_counterexample :
    smsGate emptyCooldown 0
      ⟨some ("09170000002".data), some ("TEST".data), some ("Hi".data)⟩ =
      .proceed ("+639170000002".data) ("TEST".data) ("Hi".data)
        (mapSet emptyCooldown ("+639170000002".data) 0) ∧
    (smsGate (mapSet emptyCooldown ("+639170000002".data) 0) 5000
      ⟨some ("09170000002".data), some ("TEST".data), some ("Hi".data)⟩
      ).isProceed = true := by
  exact ⟨rfl, by decide⟩

/-- C4 (amended): the reservation is written before the provider call
is issued, so when a first request is admitted at a NONZERO time t1,
any second request for the same normalized destination against the
resulting map at a time t2 with t2 - t1 below ten seconds is not
admitted (the two requests never both observe allowed within the
window). -/
theorem C4_optimistic_reservation (m m1 : CooldownMap) (t1 t2 : Nat)
    (req1 req2 : SmsRequest) (p s x q2 : List Char)
    (hg : smsGate m t1 req1 = .proceed p s x m1) (h0 : 0 < t1)
    (hwin : (t2 : Int) - (t1 : Int) < 10000)
    (hq2 : req2.phone = some q2) (hn2 : normalizePhone q2 = p) :
    (smsGate m1 t2 req2).isProceed = false := by
  obtain ⟨hp, -, -, hm1, -, -⟩ := smsGate_proceed_inv hg
  have hm1p : m1 p = some t1 := by
    rw [hm1, ← hp]
    simp [mapSet]
  have hden : cooldownDenies m1 p t2 = true :=
    cooldownDenies_of_entry hm1p h0 hwin
  have hq2d : req2.phone.getD [] = q2 := by rw [hq2]; rfl
  unfold smsGate
  split_ifs with h1 h2 h3 h4 h5
  · rfl
  · rfl
  · rfl
  · rfl
  · rfl
  · exact absurd (by rw [hq2d, hn2]; exact hden) h5

/-- C4 witness: a first request admitted at time 1, and an identical
second request five seconds later that is refused admission. -/
theorem C4_witness :
    smsGate emptyCooldown 1
      ⟨some ("09170000003".data), some ("TEST".data), some ("Hi".data)⟩ =
      .proceed ("+639170000003".data) ("TEST".data) ("Hi".data)
        (mapSet emptyCooldown ("+639170000003".data) 1) ∧
    (smsGate (mapSet emptyCooldown ("+639170000003".data) 1) 5000
      ⟨some ("09170000003".data), some ("TEST".data), some ("Hi".data)⟩
      ).isProceed = false :=
  ⟨rfl,
   C4_optimistic_reservation emptyCooldown
     (mapSet emptyCooldown ("+639170000003".data) 1) 1 5000
     ⟨some ("09170000003".data), some ("TEST".data), some ("Hi".data)⟩
     ⟨some ("09170000003".data), some ("TEST".data), some ("Hi".data)⟩
     ("+639170000003".data) ("TEST".data) ("Hi".data)
     ("09170000003".data)
     rfl (by decide) (by decide) (by decide) (by decide)⟩

/-! ## Claims about provider-error handling and the success payload -/

/-- The classification always lands in the fixed set of safe texts. -/
theorem classifyTwilioError_mem (code : Option Int) (emsg : List Char) :
    classifyTwilioError code emsg ∈ safeSmsErrorMessages := by
  unfold classifyTwilioError safeSmsErrorMessages
  split_ifs <;> simp

/-- C6: whenever the regional handler issued the provider call and the
provider failed, the 500 response body is the single error field holding
the classified message, which is always a member of the fixed set of
generic safe messages, whatever the raw provider error code and text
were; the raw text influences at most WHICH fixed message is chosen. -/
theorem C6_safe_provider_errors (m : CooldownMap) (now : Nat)
    (iso emsg : List Char) (req : SmsRequest) (code : Option Int)
    (hcall : (handleSms m now iso req
      (.failure code emsg)).providerCalled = true) :
    (handleSms m now iso req (.failure code emsg)).response =
      mkErr 500 (classifyTwilioError code emsg) ∧
    classifyTwilioError code emsg ∈ safeSmsErrorMessages := by
  cases hg : smsGate m now req with
  | rejected r =>
      rw [show handleSms m now iso req (.failure code emsg) =
          ⟨r, m, false⟩ from by unfold handleSms; rw [hg]] at hcall
      exact Bool.noConfusion hcall
  | proceed p s x m1 =>
      have hh : handleSms m now iso req (.failure code emsg) =
          ⟨mkErr 500 (classifyTwilioError code emsg),
           rollback m1 p, true⟩ := by
        unfold handleSms
        rw [hg]
      rw [hh]
      exact ⟨rfl, classifyTwilioError_mem code emsg⟩

/-- C6 witness: a provider failure with an unrecognized code and a raw
text that appears in no fixed message is translated to a safe text. -/
theorem C6_witness :
    (handleSms emptyCooldown 7 ("ts".data)
      ⟨some ("09171234567".data), some ("TEST".data), some ("Hi".data)⟩
      (.failure (some 99999)
        ("secret stack trace of the provider".data))).providerCalled
      = true ∧
    ((handleSms emptyCooldown 7 ("ts".data)
      ⟨some ("09171234567".data), some ("TEST".data), some ("Hi".data)⟩
      (.failure (some 99999)
        ("secret stack trace of the provider".data))).response =
      mkErr 500 (classifyTwilioError (some 99999)
        ("secret stack trace of the provider".data)) ∧
     classifyTwilioError (some 99999)
       ("secret stack trace of the provider".data) ∈
       safeSmsErrorMessages) :=
  ⟨by decide,
   C6_safe_provider_errors emptyCooldown 7 ("ts".data)
     ("secret stack trace of the provider".data)
     ⟨some ("09171234567".data), some ("TEST".data), some ("Hi".data)⟩
     (some 99999) (by decide)⟩

/-- C9: when the regional handler issued the provider call and the
provider succeeded, the 200 response body consists of exactly the six
fields success, message, messageId (the provider-assigned id),
recipient (the normalized destination), sender (the sender label) and
timestamp, in this order. -/
theorem C9_success_response (m : CooldownMap) (now : Nat)
    (iso sid q sl : List Char) (req : SmsRequest)
    (hq : req.phone = some q) (hs : req.sender = some sl)
    (hcall : (handleSms m now iso req
      (.success sid)).providerCalled = true) :
    (handleSms m now iso req (.success sid)).response.status = 200 ∧
    (handleSms m now iso req (.success sid)).response.body =
      [("success", JsVal.bool true),
       ("message", JsVal.str ("SMS sent successfully!".data)),
       ("messageId", JsVal.str sid),
       ("recipient", JsVal.str (normalizePhone q)),
       ("sender", JsVal.str sl),
       ("timestamp", JsVal.str iso)] := by
  cases hg : smsGate m now req with
  | rejected r =>
      rw [show handleSms m now iso req (.success sid) =
          ⟨r, m, false⟩ from by unfold handleSms; rw [hg]] at hcall
      exact Bool.noConfusion hcall
  | proceed p s x m1 =>
      obtain ⟨hp, hsv, -, -, -, -⟩ := smsGate_proceed_inv hg
      have hqd : req.phone.getD [] = q := by rw [hq]; rfl
      have hsd : req.sender.getD [] = sl := by rw [hs]; rfl
      have hh : handleSms m now iso req (.success sid) =
          ⟨⟨200, [("success", JsVal.bool true),
                  ("message", JsVal.str ("SMS sent successfully!".data)),
                  ("messageId", JsVal.str sid),
                  ("recipient", JsVal.str p),
                  ("sender", JsVal.str s),
                  ("timestamp", JsVal.str iso)]⟩, m1, true⟩ := by
        unfold handleSms
        rw [hg]
      rw [hh]
      refine ⟨rfl, ?_⟩
      rw [hp, hqd, hsv, hsd]

/-- C9 witness: the success payload for a concrete trunk-form request
carries the international recipient and the provider id. -/
theorem C9_witness :
    (handleSms emptyCooldown 7 ("2026-10-11T00:00:00.000Z".data)
      ⟨some ("0917 123 4567".data), some ("ACME".data), some ("Hello".data)⟩
      (.success ("SM77".data))).providerCalled = true ∧
    ((handleSms emptyCooldown 7 ("2026-10-11T00:00:00.000Z".data)
      ⟨some ("0917 123 4567".data), some ("ACME".data), some ("Hello".data)⟩
      (.success ("SM77".data))).response.status = 200 ∧
     (handleSms emptyCooldown 7 ("2026-10-11T00:00:00.000Z".data)
      ⟨some ("0917 123 4567".data), some ("ACME".data), some ("Hello".data)⟩
      (.success ("SM77".data))).response.body =
      [("success", JsVal.bool true),
       ("message", JsVal.str ("SMS sent successfully!".data)),
       ("messageId", JsVal.str ("SM77".data)),
       ("recipient", JsVal.str (normalizePhone ("0917 123 4567".data))),
       ("sender", JsVal.str ("ACME".data)),
       ("timestamp", JsVal.str ("2026-10-11T00:00:00.000Z".data))]) :=
  ⟨by decide,
   C9_success_response emptyCooldown 7 ("2026-10-11T00:00:00.000Z".data)
     ("SM77".data) ("0917 123 4567".data) ("ACME".data)
     ⟨some ("0917 123 4567".data), some ("ACME".data), some ("Hello".data)⟩
     (by decide) (by decide) (by decide)⟩

/-! ## Claims about the generic handler -/

/-- C8 (counterexample): the destination 1-234 matches the loose
pattern once whitespace AND hyphens are stripped (as the claim and the
spec describe), but the generic handler strips only whitespace, so the
raw string fails the regex and the request is rejected with the 400
InvalidFormat response. This refutes the claimed acceptance set. -/
theorem C8_counterexample :
    specGenericAccepts ("1-234".data) = true ∧
    acceptsGenericPhone ("1-234".data) = false ∧
    (handleSmsGeneric
      ⟨some ("1-234".data), some ("TEST".data), some ("Hello".data)⟩
      ("abc123def".data) ("ts".data)).1 =
      mkErr 400 ("Invalid phone number format".data) := by
  refine ⟨by decide, by decide, by decide⟩

/-- C8 (amended): for a request whose three parameters are present and
nonempty, the generic handler returns the 400 InvalidFormat response
exactly when the destination, after stripping whitespace ONLY (hyphens
are not stripped), fails the loose pattern of an optional leading plus
and two to fifteen digits not starting with zero; and no branch of this
handler issues a provider call. -/
theorem C8_generic_validation (req : SmsRequest)
    (rand iso q sl tx : List Char)
    (hq : req.phone = some q) (hs : req.sender = some sl)
    (ht : req.text = some tx)
    (hqne : q ≠ []) (hsne : sl ≠ []) (htne : tx ≠ []) :
    ((handleSmsGeneric req rand iso).1 =
        mkErr 400 ("Invalid phone number format".data) ↔
      acceptsGenericPhone q = false) ∧
    (handleSmsGeneric req rand iso).2 = false := by
  unfold handleSmsGeneric
  rw [hq, hs, ht]
  simp only [Option.getD_some]
  rw [isFalsyParam_of_ne hqne, isFalsyParam_of_ne hsne,
    isFalsyParam_of_ne htne]
  rw [if_neg (by simp)]
  by_cases hacc : acceptsGenericPhone q = true
  · rw [if_neg (by rw [hacc]; exact Bool.noConfusion)]
    refine ⟨?_, ?_⟩
    · constructor
      · intro habs
        by_cases hlen : 160 < tx.length
        · rw [if_pos hlen] at habs
          exact absurd (congrArg HttpResponse.body habs) (by decide)
        · rw [if_neg hlen] at habs
          exact absurd (congrArg HttpResponse.status habs) (by simp [mkErr])
      · intro habs
        exact absurd hacc (by rw [habs]; exact Bool.noConfusion)
    · by_cases hlen : 160 < tx.length
      · rw [if_pos hlen]
      · rw [if_neg hlen]
  · have hacc' : acceptsGenericPhone q = false :=
      Bool.eq_false_iff.mpr hacc
    rw [if_pos (by rw [hacc']; rfl)]
    exact ⟨⟨fun _ => hacc', fun _ => rfl⟩, rfl⟩

/-- C8 witness: the amended theorem at a hyphen-free destination the
generic handler accepts (the response is not the InvalidFormat one). -/
theorem C8_witness :
    acceptsGenericPhone ("12345".data) = true ∧
    (((handleSmsGeneric
        ⟨some ("12345".data), some ("TEST".data), some ("Hello".data)⟩
        ("abc".data) ("ts".data)).1 =
          mkErr 400 ("Invalid phone number format".data) ↔
        acceptsGenericPhone ("12345".data) = false) ∧
      (handleSmsGeneric
        ⟨some ("12345".data), some ("TEST".data), some ("Hello".data)⟩
        ("abc".data) ("ts".data)).2 = false) :=
  ⟨by decide,
   C8_generic_validation
     ⟨some ("12345".data), some ("TEST".data), some ("Hello".data)⟩
     ("abc".data) ("ts".data) ("12345".data) ("TEST".data)
     ("Hello".data)
     (by decide) (by decide) (by decide)
     (by decide) (by decide) (by decide)⟩

/-- No invocation of the generic handler issues a provider call, and
none produces a 500 status: its try block contains no outbound call and
nothing that can throw, so the catch branch is unreachable. -/
theorem handleSmsGeneric_no_provider (req : SmsRequest)
    (rand iso : List Char) :
    (handleSmsGeneric req rand iso).2 = false ∧
    (handleSmsGeneric req rand iso).1.status ≠ 500 := by
  unfold handleSmsGeneric
  split_ifs <;> exact ⟨rfl, by simp [mkErr]⟩

/-- C10: a request that passes the missing-parameter, phone-format and
message-length checks of the generic handler receives, without any
outbound provider call, the 200 success body whose messageId is the
fixed msg_ marker followed by the random suffix; and for every request
whatsoever the handler issues no provider call and never returns the
500 status of its unreachable catch branch. -/
theorem C10_generic_simulated_send (req req2 : SmsRequest)
    (rand iso rand2 iso2 q sl tx : List Char)
    (hq : req.phone = some q) (hs : req.sender = some sl)
    (ht : req.text = some tx)
    (hqne : q ≠ []) (hsne : sl ≠ []) (htne : tx ≠ [])
    (hacc : acceptsGenericPhone q = true) (hlen : tx.length ≤ 160) :
    (handleSmsGeneric req rand iso).1 =
      ⟨200, [("success", JsVal.bool true),
             ("message", JsVal.str ("SMS sent successfully".data)),
             ("messageId", JsVal.str (("msg_".data) ++ rand)),
             ("timestamp", JsVal.str iso)]⟩ ∧
    (handleSmsGeneric req rand iso).2 = false ∧
    (handleSmsGeneric req2 rand2 iso2).2 = false ∧
    (handleSmsGeneric req2 rand2 iso2).1.status ≠ 500 := by
  have hglobal := handleSmsGeneric_no_provider req2 rand2 iso2
  refine ⟨?_, ?_, hglobal.1, hglobal.2⟩
  · unfold handleSmsGeneric
    rw [hq, hs, ht]
    simp only [Option.getD_some]
    rw [isFalsyParam_of_ne hqne, isFalsyParam_of_ne hsne,
      isFalsyParam_of_ne htne]
    rw [if_neg (by simp), if_neg (by rw [hacc]; exact Bool.noConfusion),
      if_neg (by omega)]
  · exact (handleSmsGeneric_no_provider req rand iso).1

/-- C10 witness: a concrete valid request receives the simulated
success response and triggers no provider call. -/
theorem C10_witness :
    acceptsGenericPhone ("+14155550123".data) = true ∧
    ((handleSmsGeneric
        ⟨some ("+14155550123".data), some ("TEST".data), some ("Hi".data)⟩
        ("x7k2p9q4z".data) ("ts".data)).1 =
      ⟨200, [("success", JsVal.bool true),
             ("message", JsVal.str ("SMS sent successfully".data)),
             ("messageId", JsVal.str (("msg_".data) ++ ("x7k2p9q4z".data))),
             ("timestamp", JsVal.str ("ts".data))]⟩ ∧
     (handleSmsGeneric
        ⟨some ("+14155550123".data), some ("TEST".data), some ("Hi".data)⟩
        ("x7k2p9q4z".data) ("ts".data)).2 = false ∧
     (handleSmsGeneric ⟨none, none, none⟩ ("r".data) ("ts".data)).2
        = false ∧
     (handleSmsGeneric ⟨none, none, none⟩ ("r".data) ("ts".data)).1.status
        ≠ 500) :=
  ⟨by decide,
   C10_generic_simulated_send
     ⟨some ("+14155550123".data), some ("TEST".data), some ("Hi".data)⟩
     ⟨none, none, none⟩ ("x7k2p9q4z".data) ("ts".data) ("r".data)
     ("ts".data) ("+14155550123".data) ("TEST".data) ("Hi".data)
     (by decide) (by decide) (by decide)
     (by decide) (by decide) (by decide)
     (by decide) (by decide)⟩

end SmsMessage
